import Mathlib

/-!
Shallow embedding of the computational logic of `src/app.py`
(Smart Healthcare Operations Optimizer).

The app computes, on each widget interaction:
  * operations metrics (tab 1, lines 25-29) over slider inputs,
  * advisory messages from thresholds (lines 32-40),
  * an ROI figure and its classification (tab 2, lines 90-98),
  * a Six Sigma DPMO / sigma-level estimate and its classification
    (lines 104-118).

Python's float division, `min`, `max` and comparisons are modelled over ℚ
(exact arithmetic); the single transcendental operation `np.log10` is
modelled by `Real.logb 10` over ℝ.
-/

namespace App

/-- Source line 25: `patients_per_doctor = num_patients_per_hour / num_doctors`. -/
def patients_per_doctor (num_patients_per_hour num_doctors : ℚ) : ℚ :=
  num_patients_per_hour / num_doctors

/-- Source line 26: `doctor_utilization = min(100, (patients_per_doctor * consult_time / 60) * 100)`. -/
def doctor_utilization (num_patients_per_hour num_doctors consult_time : ℚ) : ℚ :=
  min 100 ((patients_per_doctor num_patients_per_hour num_doctors * consult_time / 60) * 100)

/-- Source line 27: `waiting_time = max(0, (patients_per_doctor * consult_time) - 60)`. -/
def waiting_time (num_patients_per_hour num_doctors consult_time : ℚ) : ℚ :=
  max 0 (patients_per_doctor num_patients_per_hour num_doctors * consult_time - 60)

/-- Source line 28: `bed_utilization = min(100, (num_patients_per_hour / num_beds) * 100)`. -/
def bed_utilization (num_patients_per_hour num_beds : ℚ) : ℚ :=
  min 100 ((num_patients_per_hour / num_beds) * 100)

/-- Source line 29: `throughput = num_patients_per_hour * staff_shifts`. -/
def throughput (num_patients_per_hour staff_shifts : ℚ) : ℚ :=
  num_patients_per_hour * staff_shifts

/-- Source lines 32-35: recommendation message for doctor utilization. -/
def doctor_msg (doctor_utilization_val : ℚ) : String :=
  if doctor_utilization_val > 90 then
    "⚠️ Doctors are overutilized. Consider hiring more doctors or reducing consultation time."
  else
    "✅ Doctor utilization is optimal."

/-- Source lines 37-40: recommendation message for bed utilization. -/
def bed_msg (bed_utilization_val : ℚ) : String :=
  if bed_utilization_val > 85 then
    "⚠️ High bed occupancy. Risk of patient overflow!"
  else
    "✅ Bed availability is healthy."

/-- Source line 90: `roi = ((annual_savings * years - investment) / investment) * 100`. -/
def roi (investment annual_savings years : ℚ) : ℚ :=
  ((annual_savings * years - investment) / investment) * 100

/-- Source lines 93-98: which of the three ROI status messages is displayed. -/
def roiClass (roi_val : ℚ) : String :=
  if roi_val > 50 then
    "✅ Excellent ROI — expansion or new process design is financially viable."
  else if roi_val > 0 then
    "⚠️ Moderate ROI — consider fine-tuning your process."
  else
    "❌ Negative ROI — not financially feasible."

/-- Source line 104: `opportunities = 1000 * 10`. -/
def opportunities : ℚ := 1000 * 10

/-- Source line 105: `dpmo = (defects / opportunities) * 1_000_000`. -/
def dpmo (defects : ℕ) : ℚ :=
  ((defects : ℚ) / opportunities) * 1000000

/-- Source line 106: `sigma_level = 6 - (np.log10(dpmo/3.4) if dpmo > 0 else 0)`. -/
noncomputable def sigma_level (defects : ℕ) : ℝ :=
  6 - (if 0 < dpmo defects then Real.logb 10 (((dpmo defects : ℚ) : ℝ) / 3.4) else 0)

open Classical in
/-- Source lines 111-118: which of the four sigma-quality messages is displayed. -/
noncomputable def sigmaClass (sigma_level_val : ℝ) : String :=
  if sigma_level_val ≥ 5 then
    "✅ Excellent process quality (World-Class)."
  else if sigma_level_val ≥ 4 then
    "🟢 Good process, scope for improvement."
  else if sigma_level_val ≥ 3 then
    "🟠 Moderate quality — consider Six Sigma interventions."
  else
    "🔴 Poor quality — urgent process redesign required."

end App

open App

/-- C1: for every input with numDoctors ≥ 1, patientsPerHour ≥ 1, consultMinutes ≥ 0,
numBeds ≥ 1, shifts ≥ 1, the operations metrics are exactly the spec formulas, and the
example (5 doctors, 30 patients/hour, 10 minutes) yields patientsPerDoctor = 6,
doctorUtilizationPct = 100, waitingTimeMin = 0. -/
theorem operations_metrics_spec
    (numDoctors patientsPerHour consultMinutes numBeds shifts : ℚ)
    (hd : 1 ≤ numDoctors) (hp : 1 ≤ patientsPerHour) (hc : 0 ≤ consultMinutes)
    (hb : 1 ≤ numBeds) (hs : 1 ≤ shifts) :
    patients_per_doctor patientsPerHour numDoctors = patientsPerHour / numDoctors ∧
    doctor_utilization patientsPerHour numDoctors consultMinutes =
      min 100 (patientsPerHour / numDoctors * consultMinutes / 60 * 100) ∧
    waiting_time patientsPerHour numDoctors consultMinutes =
      max 0 (patientsPerHour / numDoctors * consultMinutes - 60) ∧
    bed_utilization patientsPerHour numBeds = min 100 (patientsPerHour / numBeds * 100) ∧
    throughput patientsPerHour shifts = patientsPerHour * shifts ∧
    patients_per_doctor 30 5 = 6 ∧
    doctor_utilization 30 5 10 = 100 ∧
    waiting_time 30 5 10 = 0 := by
  refine ⟨rfl, rfl, rfl, rfl, rfl, ?_, ?_, ?_⟩
  · norm_num [patients_per_doctor]
  · norm_num [doctor_utilization, patients_per_doctor]
  · norm_num [waiting_time, patients_per_doctor]

/-- Witness for C1 at numDoctors = 5, patientsPerHour = 30, consultMinutes = 10,
numBeds = 20, shifts = 3. -/
theorem operations_metrics_spec_witness :
    doctor_utilization 30 5 10 = 100 ∧ waiting_time 30 5 10 = 0 :=
  ⟨(operations_metrics_spec 5 30 10 20 3 (by norm_num) (by norm_num) (by norm_num)
      (by norm_num) (by norm_num)).2.2.2.2.2.2.1,
   (operations_metrics_spec 5 30 10 20 3 (by norm_num) (by norm_num) (by norm_num)
      (by norm_num) (by norm_num)).2.2.2.2.2.2.2⟩

/-- C2: for every defectsPer1000 in [0,1000], dpmo = (defects/10000) × 1,000,000, the
sigma level is 6 − log10(dpmo/3.4) when dpmo > 0, and exactly 6 when dpmo = 0 (the
zero branch subtracts 0 instead of a logarithm). -/
theorem sixSigma_spec (defects : ℕ) (h : defects ≤ 1000) :
    dpmo defects = ((defects : ℚ) / 10000) * 1000000 ∧
    (0 < dpmo defects →
      sigma_level defects = 6 - Real.logb 10 (((dpmo defects : ℚ) : ℝ) / 3.4)) ∧
    (dpmo defects = 0 → sigma_level defects = 6) := by
  refine ⟨by norm_num [dpmo, opportunities], ?_, ?_⟩
  · intro hpos
    unfold sigma_level
    rw [if_pos hpos]
  · intro hz
    unfold sigma_level
    rw [if_neg (by rw [hz]; exact lt_irrefl 0), sub_zero]

/-- Witness for C2 at defects = 0: dpmo is 0 and the sigma level is exactly 6. -/
theorem sixSigma_spec_witness : dpmo 0 = 0 ∧ sigma_level 0 = 6 := by
  have hz : dpmo 0 = 0 := by norm_num [dpmo, opportunities]
  exact ⟨hz, (sixSigma_spec 0 (by norm_num)).2.2 hz⟩

/-- C3: for every investment > 0, annualSavings ≥ 0, years ≥ 1, the ROI is
((annualSavings × years − investment) / investment) × 100, and the example
investment = 500000, annualSavings = 100000, years = 3 yields −40. -/
theorem roi_spec (investment annualSavings years : ℚ)
    (hi : 0 < investment) (hs : 0 ≤ annualSavings) (hy : 1 ≤ years) :
    roi investment annualSavings years =
      ((annualSavings * years - investment) / investment) * 100 ∧
    roi 500000 100000 3 = -40 :=
  ⟨rfl, by norm_num [roi]⟩

/-- Witness for C3 at investment = 500000, annualSavings = 100000, years = 3. -/
theorem roi_spec_witness : roi 500000 100000 3 = -40 :=
  (roi_spec 500000 100000 3 (by norm_num) (by norm_num) (by norm_num)).2

/-- C4: the ROI classification is a total three-way mapping: roiPct > 50 is excellent,
0 < roiPct ≤ 50 is moderate, and roiPct ≤ 0 is negative / not feasible. -/
theorem roi_classification (r : ℚ) :
    (r > 50 →
      roiClass r = "✅ Excellent ROI — expansion or new process design is financially viable.") ∧
    (0 < r → r ≤ 50 →
      roiClass r = "⚠️ Moderate ROI — consider fine-tuning your process.") ∧
    (r ≤ 0 →
      roiClass r = "❌ Negative ROI — not financially feasible.") := by
  unfold roiClass
  refine ⟨?_, ?_, ?_⟩
  · intro h1
    rw [if_pos h1]
  · intro h1 h2
    rw [if_neg (by push_neg; linarith), if_pos h1]
  · intro h1
    rw [if_neg (by push_neg; linarith), if_neg (by push_neg; linarith)]

/-- Witness for C4: the three bands at roiPct = 60, 30 and −40. -/
theorem roi_classification_witness :
    roiClass 60 = "✅ Excellent ROI — expansion or new process design is financially viable." ∧
    roiClass 30 = "⚠️ Moderate ROI — consider fine-tuning your process." ∧
    roiClass (-40) = "❌ Negative ROI — not financially feasible." :=
  ⟨(roi_classification 60).1 (by norm_num),
   (roi_classification 30).2.1 (by norm_num) (by norm_num),
   (roi_classification (-40)).2.2 (by norm_num)⟩

/-- C5: the sigma classification is a total four-band mapping (≥ 5 world-class,
[4,5) good, [3,4) moderate, < 3 poor), and in particular defects = 50 yields
dpmo = 5000 and is classified poor (its sigma level 6 − log10(5000/3.4) is below 3). -/
theorem sigma_classification :
    (∀ s : ℝ,
      (5 ≤ s → sigmaClass s = "✅ Excellent process quality (World-Class).") ∧
      (4 ≤ s → s < 5 → sigmaClass s = "🟢 Good process, scope for improvement.") ∧
      (3 ≤ s → s < 4 → sigmaClass s = "🟠 Moderate quality — consider Six Sigma interventions.") ∧
      (s < 3 → sigmaClass s = "🔴 Poor quality — urgent process redesign required.")) ∧
    dpmo 50 = 5000 ∧
    sigmaClass (sigma_level 50) = "🔴 Poor quality — urgent process redesign required." := by
  have hband : ∀ s : ℝ,
      (5 ≤ s → sigmaClass s = "✅ Excellent process quality (World-Class).") ∧
      (4 ≤ s → s < 5 → sigmaClass s = "🟢 Good process, scope for improvement.") ∧
      (3 ≤ s → s < 4 → sigmaClass s = "🟠 Moderate quality — consider Six Sigma interventions.") ∧
      (s < 3 → sigmaClass s = "🔴 Poor quality — urgent process redesign required.") := by
    intro s
    unfold sigmaClass
    refine ⟨?_, ?_, ?_, ?_⟩
    · intro h1
      rw [if_pos h1]
    · intro h1 h2
      rw [if_neg (by push_neg; linarith), if_pos h1]
    · intro h1 h2
      rw [if_neg (by push_neg; linarith), if_neg (by push_neg; linarith), if_pos h1]
    · intro h1
      rw [if_neg (by push_neg; linarith), if_neg (by push_neg; linarith),
        if_neg (by push_neg; linarith)]
  have hd : dpmo 50 = 5000 := by norm_num [dpmo, opportunities]
  have hy : ((dpmo 50 : ℚ) : ℝ) / 3.4 = 25000 / 17 := by
    rw [hd]; norm_num
  have h3 : (10 : ℝ) ^ (3 : ℝ) = 1000 := by
    have hc : ((3 : ℕ) : ℝ) = (3 : ℝ) := by norm_num
    rw [← hc, Real.rpow_natCast]
    norm_num
  have hlog : (3 : ℝ) < Real.logb 10 (25000 / 17) := by
    rw [Real.lt_logb_iff_rpow_lt (by norm_num) (by norm_num), h3]
    norm_num
  have hpos : 0 < dpmo 50 := by rw [hd]; norm_num
  have hs : sigma_level 50 < 3 := by
    unfold sigma_level
    rw [if_pos hpos, hy]
    linarith
  exact ⟨hband, hd, (hband (sigma_level 50)).2.2.2 hs⟩

/-- Witness for C5: band membership at concrete sigma levels 5.5, 4.5, 3.5 and 2. -/
theorem sigma_classification_witness :
    sigmaClass 5.5 = "✅ Excellent process quality (World-Class)." ∧
    sigmaClass 4.5 = "🟢 Good process, scope for improvement." ∧
    sigmaClass 3.5 = "🟠 Moderate quality — consider Six Sigma interventions." ∧
    sigmaClass 2 = "🔴 Poor quality — urgent process redesign required." :=
  ⟨(sigma_classification.1 5.5).1 (by norm_num),
   (sigma_classification.1 4.5).2.1 (by norm_num) (by norm_num),
   (sigma_classification.1 3.5).2.2.1 (by norm_num) (by norm_num),
   (sigma_classification.1 2).2.2.2 (by norm_num)⟩

/-- C6: the advisory messages are decided exactly by the thresholds: doctor
utilization above 90 gives the overutilization warning, otherwise the optimal
message; bed utilization above 85 gives the overflow-risk warning, otherwise
the healthy message. -/
theorem advisory_messages (du bu : ℚ) :
    (du > 90 →
      doctor_msg du =
        "⚠️ Doctors are overutilized. Consider hiring more doctors or reducing consultation time.") ∧
    (du ≤ 90 → doctor_msg du = "✅ Doctor utilization is optimal.") ∧
    (bu > 85 → bed_msg bu = "⚠️ High bed occupancy. Risk of patient overflow!") ∧
    (bu ≤ 85 → bed_msg bu = "✅ Bed availability is healthy.") := by
  unfold doctor_msg bed_msg
  refine ⟨?_, ?_, ?_, ?_⟩
  · intro h1
    rw [if_pos h1]
  · intro h1
    rw [if_neg (by push_neg; linarith)]
  · intro h1
    rw [if_pos h1]
  · intro h1
    rw [if_neg (by push_neg; linarith)]

/-- Witness for C6 at doctor utilization 95 and 80, bed utilization 90 and 70. -/
theorem advisory_messages_witness :
    doctor_msg 95 =
      "⚠️ Doctors are overutilized. Consider hiring more doctors or reducing consultation time." ∧
    doctor_msg 80 = "✅ Doctor utilization is optimal." ∧
    bed_msg 90 = "⚠️ High bed occupancy. Risk of patient overflow!" ∧
    bed_msg 70 = "✅ Bed availability is healthy." :=
  ⟨(advisory_messages 95 90).1 (by norm_num),
   (advisory_messages 80 90).2.1 (by norm_num),
   (advisory_messages 95 90).2.2.1 (by norm_num),
   (advisory_messages 95 70).2.2.2 (by norm_num)⟩

/-- C7: for all numDoctors in [1,20], patientsPerHour in [10,100], consultMinutes
in [5,30], the doctor utilization lies in [0,100]. -/
theorem doctor_utilization_bounds (numDoctors patientsPerHour consultMinutes : ℚ)
    (hd1 : 1 ≤ numDoctors) (hd2 : numDoctors ≤ 20)
    (hp1 : 10 ≤ patientsPerHour) (hp2 : patientsPerHour ≤ 100)
    (hc1 : 5 ≤ consultMinutes) (hc2 : consultMinutes ≤ 30) :
    0 ≤ doctor_utilization patientsPerHour numDoctors consultMinutes ∧
    doctor_utilization patientsPerHour numDoctors consultMinutes ≤ 100 := by
  constructor
  · unfold doctor_utilization patients_per_doctor
    have hx : (0 : ℚ) ≤ patientsPerHour / numDoctors * consultMinutes / 60 * 100 := by
      apply mul_nonneg
      · apply div_nonneg
        · exact mul_nonneg (div_nonneg (by linarith) (by linarith)) (by linarith)
        · norm_num
      · norm_num
    exact le_min (by norm_num) hx
  · exact min_le_left _ _

/-- Witness for C7 at numDoctors = 5, patientsPerHour = 30, consultMinutes = 10. -/
theorem doctor_utilization_bounds_witness :
    0 ≤ doctor_utilization 30 5 10 ∧ doctor_utilization 30 5 10 ≤ 100 :=
  doctor_utilization_bounds 5 30 10 (by norm_num) (by norm_num) (by norm_num)
    (by norm_num) (by norm_num) (by norm_num)

/-- C8: for all patientsPerHour in [10,100] and numBeds in [5,100], the bed
utilization lies in [0,100]. -/
theorem bed_utilization_bounds (patientsPerHour numBeds : ℚ)
    (hp1 : 10 ≤ patientsPerHour) (hp2 : patientsPerHour ≤ 100)
    (hb1 : 5 ≤ numBeds) (hb2 : numBeds ≤ 100) :
    0 ≤ bed_utilization patientsPerHour numBeds ∧
    bed_utilization patientsPerHour numBeds ≤ 100 := by
  constructor
  · unfold bed_utilization
    have hx : (0 : ℚ) ≤ patientsPerHour / numBeds * 100 :=
      mul_nonneg (div_nonneg (by linarith) (by linarith)) (by norm_num)
    exact le_min (by norm_num) hx
  · exact min_le_left _ _

/-- Witness for C8 at patientsPerHour = 30, numBeds = 20. -/
theorem bed_utilization_bounds_witness :
    0 ≤ bed_utilization 30 20 ∧ bed_utilization 30 20 ≤ 100 :=
  bed_utilization_bounds 30 20 (by norm_num) (by norm_num) (by norm_num) (by norm_num)

/-- C9: for every input in the declared domains (numDoctors in [1,20],
patientsPerHour in [10,100], consultMinutes in [5,30]), the waiting time is
never negative. -/
theorem waiting_time_nonneg (numDoctors patientsPerHour consultMinutes : ℚ)
    (hd1 : 1 ≤ numDoctors) (hd2 : numDoctors ≤ 20)
    (hp1 : 10 ≤ patientsPerHour) (hp2 : patientsPerHour ≤ 100)
    (hc1 : 5 ≤ consultMinutes) (hc2 : consultMinutes ≤ 30) :
    0 ≤ waiting_time patientsPerHour numDoctors consultMinutes :=
  le_max_left 0 _

/-- Witness for C9 at numDoctors = 5, patientsPerHour = 30, consultMinutes = 10. -/
theorem waiting_time_nonneg_witness : 0 ≤ waiting_time 30 5 10 :=
  waiting_time_nonneg 5 30 10 (by norm_num) (by norm_num) (by norm_num)
    (by norm_num) (by norm_num) (by norm_num)

/-- C10: for every input in the declared domains, a strictly positive waiting
time forces the doctor utilization to be exactly 100: the waiting-time formula
exceeds zero only when the uncapped utilization reaches or exceeds the cap. -/
theorem waiting_implies_full_utilization (numDoctors patientsPerHour consultMinutes : ℚ)
    (hd1 : 1 ≤ numDoctors) (hd2 : numDoctors ≤ 20)
    (hp1 : 10 ≤ patientsPerHour) (hp2 : patientsPerHour ≤ 100)
    (hc1 : 5 ≤ consultMinutes) (hc2 : consultMinutes ≤ 30)
    (hw : 0 < waiting_time patientsPerHour numDoctors consultMinutes) :
    doctor_utilization patientsPerHour numDoctors consultMinutes = 100 := by
  unfold waiting_time at hw
  unfold doctor_utilization
  have hx : 60 < patients_per_doctor patientsPerHour numDoctors * consultMinutes := by
    by_contra hcon
    push_neg at hcon
    rw [max_eq_left (by linarith)] at hw
    exact lt_irrefl 0 hw
  apply min_eq_left
  have h1 : (1 : ℚ) < patients_per_doctor patientsPerHour numDoctors * consultMinutes / 60 := by
    rw [lt_div_iff₀ (by norm_num)]
    linarith
  nlinarith

/-- Witness for C10 at numDoctors = 1, patientsPerHour = 100, consultMinutes = 30,
where the waiting time is 2940 minutes. -/
theorem waiting_implies_full_utilization_witness : doctor_utilization 100 1 30 = 100 :=
  waiting_implies_full_utilization 1 100 30 (by norm_num) (by norm_num) (by norm_num)
    (by norm_num) (by norm_num) (by norm_num)
    (by norm_num [waiting_time, patients_per_doctor])
